import Mathlib

set_option maxRecDepth 10000

/-
Shallow embedding of src/include/logging/logging.hpp (C++ namespace `logging`).

Stateful pieces (the file stream, the last-reopen timestamp, the lazily
constructed singleton) are modelled by explicit state passing; the observable
actions of a call (lock operations, stream writes, flushes, file open/close)
are recorded in an event trace.  Wall-clock reads are parameters: `Tm` stands
for the `gmtime_r` result used by `timestamp()`, and `Int` nanosecond counts
since the Unix epoch stand for `std::chrono::system_clock::time_point` values
(the clock's duration is 64-bit nanoseconds; `time_point` default-constructs
to the epoch, i.e. 0).
-/

/-- Severity levels: `enum class log_level : uint8_t { TRACE = 0, DEBUG = 1, INFO = 2, WARN = 3, ERROR = 4 }`. -/
inductive log_level where
  | TRACE
  | DEBUG
  | INFO
  | WARN
  | ERROR
deriving DecidableEq

/-- Numeric value of the underlying `uint8_t`; `<` on `log_level` is `<` on these. -/
def log_level.toNat : log_level → Nat
  | .TRACE => 0
  | .DEBUG => 1
  | .INFO => 2
  | .WARN => 3
  | .ERROR => 4

/-- Table `uncolored`: level to plain display label. -/
def uncolored : log_level → String
  | .ERROR => " [ERROR] "
  | .WARN => " [WARN] "
  | .INFO => " [INFO] "
  | .DEBUG => " [DEBUG] "
  | .TRACE => " [TRACE] "

/-- Table `colored`: level to ANSI-colored display label. -/
def colored : log_level → String
  | .ERROR => " \x1b[31;1m[ERROR]\x1b[0m "
  | .WARN => " \x1b[33;1m[WARN]\x1b[0m "
  | .INFO => " \x1b[32;1m[INFO]\x1b[0m "
  | .DEBUG => " \x1b[34;1m[DEBUG]\x1b[0m "
  | .TRACE => " \x1b[37;1m[TRACE]\x1b[0m "

/-- Compiled-in cutoff: the repository defines none of the LOGGING_LEVEL_*
macros, so the default branch `log_level::INFO` is taken. -/
def LOG_LEVEL_CUTOFF : log_level := .INFO

/-- Fields of the `std::tm` produced by `gmtime_r`, plus the sub-minute time:
`micros` is `tm_sec * 10^6` plus the microsecond fraction, matching the double
`fractional_seconds = (tp - from_time_t(tt)) + seconds(tm_sec)` that the
source prints with `%09.6f`. -/
structure Tm where
  tm_year : Nat
  tm_mon : Nat
  tm_mday : Nat
  tm_hour : Nat
  tm_min : Nat
  micros : Nat
deriving DecidableEq

/-- Low decimal digit of a natural number, as a character. -/
def digitOf (n : Nat) : Char := Nat.digitChar (n % 10)

/-- Rendering of `%02d`: two zero-padded digits for arguments below 100. -/
def fmt2 (n : Nat) : String :=
  if n < 100 then ⟨[digitOf (n / 10), digitOf n]⟩ else toString n

/-- Rendering of `%04d`: four zero-padded digits for arguments below 10000. -/
def fmt4 (n : Nat) : String :=
  if n < 10000 then ⟨[digitOf (n / 1000), digitOf (n / 100), digitOf (n / 10), digitOf n]⟩
  else toString n

/-- Six zero-padded digits (the fractional part printed by `%.6f`). -/
def fmt6 (n : Nat) : String :=
  ⟨[digitOf (n / 100000), digitOf (n / 10000), digitOf (n / 1000), digitOf (n / 100),
    digitOf (n / 10), digitOf n]⟩

/-- Rendering of `%09.6f` applied to `micros / 10^6` seconds: a zero-padded
two-digit integer part (seconds within the minute are below 100), a dot, and
six fractional digits. -/
def fmt96 (micros : Nat) : String :=
  fmt2 (micros / 1000000) ++ "." ++ fmt6 (micros % 1000000)

/-- The source's `timestamp()`:
`sprintf("%04d/%02d/%02d %02d:%02d:%09.6f", tm_year + 1900, tm_mon + 1, tm_mday, tm_hour, tm_min, fractional_seconds)`. -/
def timestamp (gmt : Tm) : String :=
  fmt4 (gmt.tm_year + 1900) ++ "/" ++ fmt2 (gmt.tm_mon + 1) ++ "/" ++ fmt2 gmt.tm_mday
    ++ " " ++ fmt2 gmt.tm_hour ++ ":" ++ fmt2 gmt.tm_min ++ ":" ++ fmt96 gmt.micros

/-- `logging_config_t = std::unordered_map<std::string, std::string>`, as an
association list with unique keys. -/
abbrev logging_config_t := List (String × String)

/-- `config.find(key)`: first value bound to `key`, if any. -/
def cfgFind (config : logging_config_t) (key : String) : Option String :=
  match config with
  | [] => none
  | (k, v) :: rest => if k = key then some v else cfgFind rest key

/-- Whitespace accepted by `strtoul` (C locale `isspace`). -/
def isCSpace (c : Char) : Bool :=
  c = ' ' || c = '\t' || c = '\n' || c = '\x0b' || c = '\x0c' || c = '\r'

/-- Value of a run of decimal digits. -/
def digitsVal (ds : List Char) : Nat :=
  ds.foldl (fun a c => a * 10 + (c.toNat - '0'.toNat)) 0

/-- `ULONG_MAX` on the target (64-bit `unsigned long`). -/
def ULONG_MAX : Nat := 2 ^ 64 - 1

/-- `std::stoul(s)` in base 10: skip leading whitespace, read an optional
sign, then the longest run of decimal digits (trailing characters are
ignored); no digits raises `invalid_argument`, a magnitude above `ULONG_MAX`
raises `out_of_range`, and a minus sign yields the negation of the value
modulo 2^64. -/
def stoul (s : String) : Except String Nat :=
  let cs := s.data.dropWhile isCSpace
  let neg := match cs with
    | '-' :: _ => true
    | _ => false
  let cs2 := match cs with
    | '-' :: rest => rest
    | '+' :: rest => rest
    | _ => cs
  let ds := cs2.takeWhile Char.isDigit
  if ds.isEmpty then .error "invalid_argument"
  else if digitsVal ds > ULONG_MAX then .error "out_of_range"
  else .ok (if neg then (2 ^ 64 - digitsVal ds) % 2 ^ 64 else digitsVal ds)

/-- Conversion of `stoul`'s `unsigned long` result into the `int64_t`
representation of `std::chrono::seconds`. -/
def toInt64Wrap (v : Nat) : Int :=
  if v < 2 ^ 63 then (v : Int) else (v : Int) - 2 ^ 64

/-- Observable actions of a logging call. -/
inductive Event where
  | lockAcquire
  | lockRelease
  | stdoutWrite (bytes : String)
  | stdoutFlush
  | fileWrite (bytes : String)
  | fileFlush
  | fileClose
  | fileOpen (name : String)
  | fileOpenFail (name : String)
deriving DecidableEq

/-- State of a `file_logger`: the member fields, whether the `std::ofstream`
is open and good, and the bytes the OS file has actually received.
`last_reopen` and times are nanoseconds since the epoch; `reopen_interval`
is the `int64_t` second count of `std::chrono::seconds`. -/
structure FileLogger where
  file_name : String
  reopen_interval : Int
  last_reopen : Int
  isOpen : Bool
  written : List String
deriving DecidableEq

/-- `file_logger::reopen()`: under the lock, if `now - last_reopen >
reopen_interval` (durations compared in nanoseconds), set `last_reopen := now`,
close, and call `ofstream::open` in append mode.  `open` has no exception mask
set, so it never throws: on failure only the failbit is set and control
returns normally (the source's catch/rethrow is unreachable).  Hence the
following line `last_reopen = std::chrono::system_clock::now()` — a second
clock read, `now2` — executes whether or not the open succeeded.
`openOk` says whether the OS open call succeeds. -/
def reopen (now now2 : Int) (openOk : Bool) (st : FileLogger) : FileLogger × List Event :=
  if st.reopen_interval * 1000000000 < now - st.last_reopen then
    if openOk then
      ({ st with last_reopen := now2, isOpen := true },
       [.lockAcquire, .fileClose, .fileOpen st.file_name, .lockRelease])
    else
      ({ st with last_reopen := now2, isOpen := false },
       [.lockAcquire, .fileClose, .fileOpenFail st.file_name, .lockRelease])
  else (st, [.lockAcquire, .lockRelease])

/-- `file_logger::file_logger(config)`: require `file_name`, build
`<pid>-<file_name>`, parse `reopen_interval` (default 300 seconds), then
"crack the file open" by calling `reopen()` on the default-initialized state
(`last_reopen` at the epoch, stream not open). -/
def file_logger_ctor (pid : Nat) (now now2 : Int) (openOk : Bool)
    (config : logging_config_t) : Except String FileLogger :=
  match cfgFind config "file_name" with
  | none => .error "No output file provided to file logger"
  | some name =>
    let intervalE : Except String Int :=
      match cfgFind config "reopen_interval" with
      | none => .ok 300
      | some s =>
        match stoul s with
        | .ok v => .ok (toInt64Wrap v)
        | .error _ => .error (s ++ " is not a valid reopen interval")
    match intervalE with
    | .error e => .error e
    | .ok interval =>
      let st0 : FileLogger :=
        { file_name := toString pid ++ "-" ++ name, reopen_interval := interval,
          last_reopen := 0, isOpen := false, written := [] }
      .ok (reopen now now2 openOk st0).1

/-- `file_logger::log(message)` (raw write path): lock, `file << message`
(bytes reach the OS only while the stream is open and good), flush, unlock,
then call `reopen()`, which takes the lock again. -/
def file_raw_log (now now2 : Int) (openOk : Bool) (st : FileLogger)
    (message : String) : FileLogger × List Event :=
  let st1 := if st.isOpen then { st with written := st.written ++ [message] } else st
  let r := reopen now now2 openOk st1
  (r.1, [.lockAcquire, .fileWrite message, .fileFlush, .lockRelease] ++ r.2)

/-- Line built by `file_logger::log(message, level)`. -/
def file_line (gmt : Tm) (message : String) (level : log_level) : String :=
  timestamp gmt ++ uncolored level ++ message ++ "\n"

/-- `file_logger::log(message, level)`: return immediately below the cutoff;
otherwise build `<timestamp><uncolored label><message>\n` and pass it to the
raw write path. -/
def file_log (now now2 : Int) (openOk : Bool) (st : FileLogger) (gmt : Tm)
    (message : String) (level : log_level) : FileLogger × List Event :=
  if level.toNat < LOG_LEVEL_CUTOFF.toNat then (st, [])
  else file_raw_log now now2 openOk st (file_line gmt message level)

/-- `std_out_logger`'s only state: the `levels` member, i.e. which label
table was picked at construction (`config.find("color") != config.end()`). -/
def std_out_logger_ctor (config : logging_config_t) : Bool :=
  (cfgFind config "color").isSome

/-- `std_out_logger::log(message)` (raw write path): a single `<<` on
`std::cout` followed by a flush; no lock is taken. -/
def std_out_raw_log (message : String) : List Event :=
  [.stdoutWrite message, .stdoutFlush]

/-- Line built by `std_out_logger::log(message, level)`. -/
def std_out_line (isColored : Bool) (pid : Nat) (gmt : Tm) (message : String)
    (level : log_level) : String :=
  timestamp gmt ++ " [" ++ toString pid ++ "]"
    ++ (if isColored then colored level else uncolored level) ++ message ++ "\n"

/-- `std_out_logger::log(message, level)`: return immediately below the
cutoff; otherwise build `<timestamp> [<pid>]<label><message>\n` and pass it
to the raw write path. -/
def std_out_log (isColored : Bool) (pid : Nat) (gmt : Tm) (message : String)
    (level : log_level) : List Event :=
  if level.toNat < LOG_LEVEL_CUTOFF.toNat then []
  else std_out_raw_log (std_out_line isColored pid gmt message level)

/-- Base-class `logger::log(message, level)`: a no-op (the null logger). -/
def null_log (_message : String) (_level : log_level) : List Event := []

/-- Base-class `logger::log(message)`: a no-op (the null logger). -/
def null_raw_log (_message : String) : List Event := []

/-- A constructed logger instance (the `logger*` the factory returns). -/
inductive LoggerInst where
  | null
  | std_out (isColored : Bool)
  | file (st : FileLogger)
deriving DecidableEq

/-- Association-list lookup for the factory's `creators` map. -/
def assocFind {α : Type} (l : List (String × α)) (key : String) : Option α :=
  match l with
  | [] => none
  | (k, v) :: rest => if k = key then some v else assocFind rest key

/-- `logger_factory::logger_factory()`: the three built-in registrations, in
emplacement order: `""` (base/null logger), `"std_out"`, `"file"`. -/
def creators (pid : Nat) (now now2 : Int) (openOk : Bool) :
    List (String × (logging_config_t → Except String LoggerInst)) :=
  [("", fun _ => .ok .null),
   ("std_out", fun config => .ok (.std_out (std_out_logger_ctor config))),
   ("file", fun config => (file_logger_ctor pid now now2 openOk config).map .file)]

/-- `logger_factory::produce(config)`: require `type`, look its value up in
`creators`, and run the registered constructor; an unregistered name is the
"Couldn't produce logger for type" error. -/
def produce (pid : Nat) (now now2 : Int) (openOk : Bool)
    (config : logging_config_t) : Except String LoggerInst :=
  match cfgFind config "type" with
  | none => .error "Logging factory configuration requires a type of logger"
  | some t =>
    match assocFind (creators pid now now2 openOk) t with
    | some ctor => ctor config
    | none => .error ("Couldn't produce logger for type: " ++ t)

/-- Default argument of `get_logger`. -/
def default_config : logging_config_t := [("type", "std_out"), ("color", "")]

/-- `get_logger(config)`: the function-local `static std::unique_ptr<logger>
singleton(get_factory().produce(config))`.  The `Option LoggerInst` is the
singleton cell: `none` before initialization has completed.  Per C++
semantics, if `produce` throws, the static is left uninitialized and
initialization is retried on the next call. -/
def get_logger (pid : Nat) (now now2 : Int) (openOk : Bool)
    (state : Option LoggerInst) (config : logging_config_t) :
    Except String LoggerInst × Option LoggerInst :=
  match state with
  | some l => (.ok l, some l)
  | none =>
    match produce pid now now2 openOk config with
    | .ok l => (.ok l, some l)
    | .error e => (.error e, none)

/-- `configure(config)`: `get_logger(config)` for its side effect only. -/
def configure (pid : Nat) (now now2 : Int) (openOk : Bool)
    (state : Option LoggerInst) (config : logging_config_t) : Option LoggerInst :=
  (get_logger pid now now2 openOk state config).2

/-- Byte payloads a trace delivers to an output sink (stdout or the file). -/
def emitted : List Event → List String
  | [] => []
  | .stdoutWrite s :: rest => s :: emitted rest
  | .fileWrite s :: rest => s :: emitted rest
  | _ :: rest => emitted rest

/-
Helper lemmas.
-/

theorem String.data_append_eq (s t : String) : (s ++ t).data = s.data ++ t.data := by
  cases s; cases t; rfl

theorem emitted_reopen (now now2 : Int) (openOk : Bool) (st : FileLogger) :
    emitted (reopen now now2 openOk st).2 = [] := by
  unfold reopen
  split
  · split <;> rfl
  · rfl

/-- Fixed witness time: 2024/01/02 03:04:05.000006 UTC. -/
def tm0 : Tm :=
  { tm_year := 124, tm_mon := 0, tm_mday := 2, tm_hour := 3, tm_min := 4, micros := 5000006 }

/-- Fixed witness file-logger state. -/
def st0 : FileLogger :=
  { file_name := "42-test.log", reopen_interval := 300, last_reopen := 0,
    isOpen := true, written := [] }

/-
Claims.
-/

/-- C1: for every message and every level strictly below `LOG_LEVEL_CUTOFF`,
`log(message, level)` on the std_out logger and on the file logger returns
immediately with no observable action at all: the event trace is empty (no
bytes, no lock, no reopen check) and the file logger's state is unchanged. -/
theorem C1_below_cutoff_noop (isColored : Bool) (pid : Nat) (gmt : Tm)
    (message : String) (level : log_level) (now now2 : Int) (openOk : Bool)
    (st : FileLogger) (h : level.toNat < LOG_LEVEL_CUTOFF.toNat) :
    std_out_log isColored pid gmt message level = []
      ∧ file_log now now2 openOk st gmt message level = (st, []) := by
  refine ⟨?_, ?_⟩
  · unfold std_out_log
    rw [if_pos h]
  · unfold file_log
    rw [if_pos h]

theorem C1_witness :
    log_level.DEBUG.toNat < LOG_LEVEL_CUTOFF.toNat
      ∧ std_out_log true 42 tm0 "hi" .DEBUG = []
      ∧ file_log 1 2 true st0 tm0 "hi" .DEBUG = (st0, []) :=
  ⟨by decide,
   (C1_below_cutoff_noop true 42 tm0 "hi" .DEBUG 1 2 true st0 (by decide)).1,
   (C1_below_cutoff_noop true 42 tm0 "hi" .DEBUG 1 2 true st0 (by decide)).2⟩

/-- C2: for every message and level at or above the cutoff, the std_out
logger emits exactly `<timestamp> [<pid>]<level-label><message>\n`, the label
coming from the colored table if and only if the construction configuration
contains the key "color"; the file logger emits exactly
`<timestamp><level-label><message>\n` with no pid segment and always the
uncolored table, regardless of configuration. -/
theorem C2_emitted_lines (config : logging_config_t) (pid : Nat) (gmt : Tm)
    (message : String) (level : log_level) (now now2 : Int) (openOk : Bool)
    (st : FileLogger) (h : LOG_LEVEL_CUTOFF.toNat ≤ level.toNat) :
    emitted (std_out_log (std_out_logger_ctor config) pid gmt message level)
        = [timestamp gmt ++ " [" ++ toString pid ++ "]"
            ++ (if (cfgFind config "color").isSome then colored level else uncolored level)
            ++ message ++ "\n"]
      ∧ emitted (file_log now now2 openOk st gmt message level).2
        = [timestamp gmt ++ uncolored level ++ message ++ "\n"] := by
  have hn : ¬ level.toNat < LOG_LEVEL_CUTOFF.toNat := Nat.not_lt.mpr h
  refine ⟨?_, ?_⟩
  · unfold std_out_log
    rw [if_neg hn]
    rfl
  · unfold file_log
    rw [if_neg hn]
    unfold file_raw_log
    simp [emitted, emitted_reopen, file_line]

theorem C2_witness :
    LOG_LEVEL_CUTOFF.toNat ≤ log_level.ERROR.toNat
      ∧ emitted (std_out_log (std_out_logger_ctor default_config) 42 tm0 "boom" .ERROR)
          = [timestamp tm0 ++ " [" ++ toString 42 ++ "]"
              ++ (if (cfgFind default_config "color").isSome then colored .ERROR
                  else uncolored .ERROR) ++ "boom" ++ "\n"]
      ∧ emitted (file_log 1 2 true st0 tm0 "boom" .ERROR).2
          = [timestamp tm0 ++ uncolored .ERROR ++ "boom" ++ "\n"] :=
  ⟨by decide,
   (C2_emitted_lines default_config 42 tm0 "boom" .ERROR 1 2 true st0 (by decide)).1,
   (C2_emitted_lines default_config 42 tm0 "boom" .ERROR 1 2 true st0 (by decide)).2⟩

/-- C3: the first `get_logger` call constructs the one global logger via the
factory from that call's configuration (with the default configuration —
std_out with "color" present, i.e. colored — when none is supplied), and
every later `get_logger` or `configure` call returns the already-constructed
instance unchanged, ignoring its configuration argument. -/
theorem C3_singleton_first_wins (pid : Nat) (now now2 : Int) (openOk : Bool) :
    (∀ config l, produce pid now now2 openOk config = .ok l →
        get_logger pid now now2 openOk none config = (.ok l, some l))
      ∧ get_logger pid now now2 openOk none default_config
          = (.ok (.std_out true), some (.std_out true))
      ∧ (∀ l config2, get_logger pid now now2 openOk (some l) config2 = (.ok l, some l)
          ∧ configure pid now now2 openOk (some l) config2 = some l) := by
  refine ⟨?_, rfl, fun l config2 => ⟨rfl, rfl⟩⟩
  intro config l h
  simp [get_logger, h]

theorem C3_witness :
    get_logger 42 1 2 true none default_config = (.ok (.std_out true), some (.std_out true))
      ∧ get_logger 42 1 2 true (some (.std_out true)) [("type", "file")]
          = (.ok (.std_out true), some (.std_out true))
      ∧ configure 42 1 2 true (some (.std_out true)) [("type", "file")] = some (.std_out true) :=
  ⟨(C3_singleton_first_wins 42 1 2 true).2.1,
   ((C3_singleton_first_wins 42 1 2 true).2.2 (.std_out true) [("type", "file")]).1,
   ((C3_singleton_first_wins 42 1 2 true).2.2 (.std_out true) [("type", "file")]).2⟩

/-- C6: `logger_factory::produce` errors when "type" is absent, errors with
the unknown-backend message `Couldn't produce logger for type: <t>` when the
type names no registered constructor, and otherwise returns the registered
constructor's result; exactly the three names `""`, `"std_out"`, `"file"` are
pre-registered, and the `""` (base-class null) logger's log operations are
no-ops. -/
theorem C6_factory (pid : Nat) (now now2 : Int) (openOk : Bool) (config : logging_config_t) :
    (creators pid now now2 openOk).map Prod.fst = ["", "std_out", "file"]
      ∧ (cfgFind config "type" = none →
          produce pid now now2 openOk config
            = .error "Logging factory configuration requires a type of logger")
      ∧ (∀ t, cfgFind config "type" = some t →
          assocFind (creators pid now now2 openOk) t = none →
          produce pid now now2 openOk config
            = .error ("Couldn't produce logger for type: " ++ t))
      ∧ (∀ t ctor, cfgFind config "type" = some t →
          assocFind (creators pid now now2 openOk) t = some ctor →
          produce pid now now2 openOk config = ctor config)
      ∧ (∀ message level, null_log message level = [] ∧ null_raw_log message = []) := by
  refine ⟨rfl, ?_, ?_, ?_, fun _ _ => ⟨rfl, rfl⟩⟩
  · intro h
    simp [produce, h]
  · intro t h1 h2
    simp [produce, h1, h2]
  · intro t ctor h1 h2
    simp [produce, h1, h2]

theorem C6_witness :
    (creators 42 1 2 true).map Prod.fst = ["", "std_out", "file"]
      ∧ produce 42 1 2 true [("type", "nonexistent")]
          = .error ("Couldn't produce logger for type: " ++ "nonexistent")
      ∧ produce 42 1 2 true [("type", "std_out")]
          = .ok (.std_out (std_out_logger_ctor [("type", "std_out")]))
      ∧ null_log "hi" .ERROR = [] :=
  ⟨(C6_factory 42 1 2 true []).1,
   (C6_factory 42 1 2 true [("type", "nonexistent")]).2.2.1 "nonexistent" rfl rfl,
   (C6_factory 42 1 2 true [("type", "std_out")]).2.2.2.1 "std_out"
     (fun config => .ok (.std_out (std_out_logger_ctor config))) rfl rfl,
   ((C6_factory 42 1 2 true []).2.2.2.2 "hi" .ERROR).1⟩

/-- C10: when factory construction fails on the first `get_logger` call, the
exception propagates to that caller, the singleton cell stays unmaterialized,
and a subsequent call behaves exactly like a fresh first call with its own
configuration. -/
theorem C10_failed_first_call (pid : Nat) (now now2 : Int) (openOk : Bool)
    (cfg1 cfg2 : logging_config_t) (e : String)
    (h : produce pid now now2 openOk cfg1 = .error e) :
    get_logger pid now now2 openOk none cfg1 = (.error e, none)
      ∧ get_logger pid now now2 openOk (get_logger pid now now2 openOk none cfg1).2 cfg2
          = get_logger pid now now2 openOk none cfg2 := by
  have h1 : get_logger pid now now2 openOk none cfg1 = (.error e, none) := by
    simp [get_logger, h]
  exact ⟨h1, by rw [h1]⟩

theorem C10_witness :
    get_logger 42 1 2 true none [("type", "file")]
        = (.error "No output file provided to file logger", none)
      ∧ get_logger 42 1 2 true (get_logger 42 1 2 true none [("type", "file")]).2 default_config
          = get_logger 42 1 2 true none default_config :=
  ⟨(C10_failed_first_call 42 1 2 true [("type", "file")] default_config
      "No output file provided to file logger" rfl).1,
   (C10_failed_first_call 42 1 2 true [("type", "file")] default_config
      "No output file provided to file logger" rfl).2⟩

theorem interval_msg_ne_no_output (s : String) :
    s ++ " is not a valid reopen interval" ≠ "No output file provided to file logger" := by
  intro h
  have h2 : (s ++ " is not a valid reopen interval").data.getLast?
      = ("No output file provided to file logger" : String).data.getLast? := by rw [h]
  rw [String.data_append_eq, List.getLast?_append] at h2
  have h3 : (" is not a valid reopen interval" : String).data.getLast? = some 'l' := rfl
  have h4 : ("No output file provided to file logger" : String).data.getLast? = some 'r' := rfl
  rw [h3, h4] at h2
  simp at h2

/-- Initial member state of a `file_logger` before the constructor's
`reopen()` call. -/
def initFileState (pid : Nat) (name : String) (interval : Int) : FileLogger :=
  { file_name := toString pid ++ "-" ++ name, reopen_interval := interval,
    last_reopen := 0, isOpen := false, written := [] }

/-- What holds of a freshly constructed `file_logger` whose parsed interval is
`interval`: the pid-prefixed name, the stored interval, nothing written yet,
and the file open with the open time recorded (from the constructor's second
clock read `now2`) precisely when the open succeeds and the interval is
smaller than the construction time's distance from the epoch. -/
def ctorPost (pid : Nat) (now now2 : Int) (openOk : Bool) (name : String)
    (interval : Int) (st : FileLogger) : Prop :=
  st.file_name = toString pid ++ "-" ++ name
    ∧ st.reopen_interval = interval
    ∧ st.written = []
    ∧ ((st.isOpen = true ∧ st.last_reopen = now2)
        ↔ (openOk = true ∧ interval * 1000000000 < now))

theorem reopen_init (now now2 : Int) (openOk : Bool) (pid : Nat) (name : String)
    (interval : Int) :
    ctorPost pid now now2 openOk name interval
      (reopen now now2 openOk (initFileState pid name interval)).1 := by
  unfold ctorPost reopen initFileState
  cases openOk <;> simp <;> split <;> simp_all

theorem ctor_no_file (pid : Nat) (now now2 : Int) (openOk : Bool)
    (config : logging_config_t) (hf : cfgFind config "file_name" = none) :
    file_logger_ctor pid now now2 openOk config
      = .error "No output file provided to file logger" := by
  simp [file_logger_ctor, hf]

theorem ctor_no_interval (pid : Nat) (now now2 : Int) (openOk : Bool)
    (config : logging_config_t) (name : String)
    (hf : cfgFind config "file_name" = some name)
    (hr : cfgFind config "reopen_interval" = none) :
    file_logger_ctor pid now now2 openOk config
      = .ok (reopen now now2 openOk (initFileState pid name 300)).1 := by
  simp [file_logger_ctor, hf, hr, initFileState]

theorem ctor_bad_interval (pid : Nat) (now now2 : Int) (openOk : Bool)
    (config : logging_config_t) (name s e : String)
    (hf : cfgFind config "file_name" = some name)
    (hr : cfgFind config "reopen_interval" = some s)
    (hs : stoul s = .error e) :
    file_logger_ctor pid now now2 openOk config
      = .error (s ++ " is not a valid reopen interval") := by
  simp [file_logger_ctor, hf, hr, hs]

theorem ctor_good_interval (pid : Nat) (now now2 : Int) (openOk : Bool)
    (config : logging_config_t) (name s : String) (v : Nat)
    (hf : cfgFind config "file_name" = some name)
    (hr : cfgFind config "reopen_interval" = some s)
    (hs : stoul s = .ok v) :
    file_logger_ctor pid now now2 openOk config
      = .ok (reopen now now2 openOk (initFileState pid name (toInt64Wrap v))).1 := by
  simp [file_logger_ctor, hf, hr, hs, initFileState]

/-- C4 counterexample: with `reopen_interval = "3000000000x"` — not a numeral,
but carrying a numeric prefix — and a construction time of 1.7e18 ns since the
epoch (November 2023), the constructor does NOT fail (refuting "fails ...
exactly when the value is non-numeric": `std::stoul` parses the prefix
3000000000) and does NOT open the file (refuting "construction opens that
file immediately": 3000000000 s exceeds the time since the epoch, and
`last_reopen` starts at the epoch, so the constructor's reopen check declines
to open). -/
theorem C4_counterexample :
    file_logger_ctor 42 1700000000000000000 1700000000000000001 true
        [("file_name", "test.log"), ("reopen_interval", "3000000000x")]
      = .ok { file_name := "42-test.log", reopen_interval := 3000000000,
              last_reopen := 0, isOpen := false, written := [] } := by
  rfl


/-- C4 (amended): construction fails with "No output file provided to file
logger" exactly when `file_name` is absent; with `file_name` and
`reopen_interval` both present it fails (with the message
`<value> is not a valid reopen interval`) exactly when `std::stoul` fails on
the value — i.e. the value has no decimal-digit prefix after optional
whitespace and sign, or its magnitude is out of unsigned-long range; a value
with a numeric prefix followed by other characters is accepted using the
prefix.  On success the reopen interval is the parsed value converted to
signed 64-bit seconds (300 when the key is absent), the on-disk file name is
`<pid>-<file_name>`, and the constructor's immediate reopen check opens the
file and records the open time precisely when the open succeeds and the
interval is smaller than the construction time's distance from the Unix epoch
(in particular, always, for the 300-second default at any realistic clock). -/
theorem C4_amended_ctor (pid : Nat) (now now2 : Int) (openOk : Bool)
    (config : logging_config_t) :
    (file_logger_ctor pid now now2 openOk config
        = .error "No output file provided to file logger"
      ↔ cfgFind config "file_name" = none)
      ∧ (∀ name s, cfgFind config "file_name" = some name →
          cfgFind config "reopen_interval" = some s →
          ((∀ e, stoul s = .error e →
              file_logger_ctor pid now now2 openOk config
                = .error (s ++ " is not a valid reopen interval"))
            ∧ ((∃ e, file_logger_ctor pid now now2 openOk config = .error e)
                ↔ (∃ e, stoul s = .error e))))
      ∧ (∀ name st, cfgFind config "file_name" = some name →
          cfgFind config "reopen_interval" = none →
          file_logger_ctor pid now now2 openOk config = .ok st →
          ctorPost pid now now2 openOk name 300 st)
      ∧ (∀ name s v st, cfgFind config "file_name" = some name →
          cfgFind config "reopen_interval" = some s →
          stoul s = .ok v →
          file_logger_ctor pid now now2 openOk config = .ok st →
          ctorPost pid now now2 openOk name (toInt64Wrap v) st) := by
  refine ⟨?_, ?_, ?_, ?_⟩
  · rcases hf : cfgFind config "file_name" with _ | name
    · rw [ctor_no_file pid now now2 openOk config hf]
      simp
    · constructor
      · intro h
        exfalso
        rcases hr : cfgFind config "reopen_interval" with _ | s
        · rw [ctor_no_interval pid now now2 openOk config name hf hr] at h
          exact Except.noConfusion h
        · rcases hs : stoul s with e | v
          · rw [ctor_bad_interval pid now now2 openOk config name s e hf hr hs] at h
            injection h with h'
            exact interval_msg_ne_no_output s h'
          · rw [ctor_good_interval pid now now2 openOk config name s v hf hr hs] at h
            exact Except.noConfusion h
      · intro h
        exact Option.noConfusion h
  · intro name s hf hr
    refine ⟨fun e hs => ctor_bad_interval pid now now2 openOk config name s e hf hr hs, ?_⟩
    constructor
    · rintro ⟨e, he⟩
      rcases hs : stoul s with e' | v
      · exact ⟨e', rfl⟩
      · rw [ctor_good_interval pid now now2 openOk config name s v hf hr hs] at he
        exact Except.noConfusion he
    · rintro ⟨e, hs⟩
      exact ⟨s ++ " is not a valid reopen interval",
        ctor_bad_interval pid now now2 openOk config name s e hf hr hs⟩
  · intro name st hf hr hok
    rw [ctor_no_interval pid now now2 openOk config name hf hr] at hok
    injection hok with hst
    subst hst
    exact reopen_init now now2 openOk pid name 300
  · intro name s v st hf hr hs hok
    rw [ctor_good_interval pid now now2 openOk config name s v hf hr hs] at hok
    injection hok with hst
    subst hst
    exact reopen_init now now2 openOk pid name (toInt64Wrap v)

/-- Configuration used by the C4 witness. -/
def cfg4 : logging_config_t := [("file_name", "test.log")]

/-- Constructor result for `cfg4` at pid 42, construction time 1.7e18 ns. -/
def fileSt4 : FileLogger :=
  { file_name := "42-test.log", reopen_interval := 300,
    last_reopen := 1700000000000000001, isOpen := true, written := [] }

theorem C4_witness :
    ctorPost 42 1700000000000000000 1700000000000000001 true "test.log" 300 fileSt4 :=
  (C4_amended_ctor 42 1700000000000000000 1700000000000000001 true cfg4).2.2.1
    "test.log" fileSt4 rfl rfl rfl

/-- Events of a raw-write trace after its first file write. -/
def afterFirstWrite : List Event → List Event
  | [] => []
  | .fileWrite _ :: rest => rest
  | _ :: rest => afterFirstWrite rest

/-- Whether a lock release occurs before the next file close. -/
def releaseBeforeClose : List Event → Bool
  | [] => false
  | .fileClose :: _ => false
  | .lockRelease :: _ => true
  | _ :: rest => releaseBeforeClose rest

/-- The claim-shaped property "the close/reopen happens under the same lock
acquisition as the write": no lock release separates the write from the
close in the trace. -/
def reopenAtomicWithWrite (tr : List Event) : Bool :=
  !(releaseBeforeClose (afterFirstWrite tr))

/-- File-logger state used by the C5/C7 concrete runs: interval 0 seconds,
last reopened at the epoch, stream open, nothing written yet. -/
def fileSt5 : FileLogger :=
  { file_name := "42-test.log", reopen_interval := 0, last_reopen := 0,
    isOpen := true, written := [] }

/-- C5 counterexample: a raw write that triggers the reopen check releases
the logger's mutex after the write/flush and re-acquires it for the
close/reopen — the trace is lock, write, flush, UNLOCK, lock, close, open,
unlock — so the close/reopen does not happen "under the same lock as the
write" (the write and the reopen check are separate critical sections and
other writers can interleave between them). -/
theorem C5_counterexample :
    (file_raw_log 1000000000 1000000001 true fileSt5 "m").2
        = [.lockAcquire, .fileWrite "m", .fileFlush, .lockRelease,
           .lockAcquire, .fileClose, .fileOpen "42-test.log", .lockRelease]
      ∧ reopenAtomicWithWrite (file_raw_log 1000000000 1000000001 true fileSt5 "m").2
          = false :=
  ⟨rfl, rfl⟩

/-- C5 (amended): on every raw write the file logger appends the bytes to the
OS file exactly when the stream is currently open, and flushes, under the
lock; it then releases the lock and unconditionally performs the reopen check
under a separate acquisition of the same mutex: when the elapsed time since
the last (re)open exceeds `reopen_interval` it closes and reopens the file in
append mode and updates the last-reopen timestamp to the second clock read
(on open failure the stream is left closed but — since the non-throwing
failed open falls through to the same assignment — the timestamp is likewise
the second clock read); when the elapsed
time does not exceed the interval — in particular for any interval exceeding
the elapsed time, however large — no close or open happens.  With
`reopen_interval = 0`, any write at a clock instant strictly after the last
(re)open causes a close/reopen cycle. -/
theorem C5_amended_raw_write (now now2 : Int) (openOk : Bool) (st : FileLogger)
    (message : String) :
    (file_raw_log now now2 openOk st message).1.written
        = (if st.isOpen then st.written ++ [message] else st.written)
      ∧ (st.reopen_interval * 1000000000 < now - st.last_reopen →
          ((openOk = true →
              (file_raw_log now now2 openOk st message).2
                  = [.lockAcquire, .fileWrite message, .fileFlush, .lockRelease,
                     .lockAcquire, .fileClose, .fileOpen st.file_name, .lockRelease]
                ∧ (file_raw_log now now2 openOk st message).1.isOpen = true
                ∧ (file_raw_log now now2 openOk st message).1.last_reopen = now2)
            ∧ (openOk = false →
                (file_raw_log now now2 openOk st message).2
                    = [.lockAcquire, .fileWrite message, .fileFlush, .lockRelease,
                       .lockAcquire, .fileClose, .fileOpenFail st.file_name, .lockRelease]
                  ∧ (file_raw_log now now2 openOk st message).1.isOpen = false
                  ∧ (file_raw_log now now2 openOk st message).1.last_reopen = now2)))
      ∧ (¬ st.reopen_interval * 1000000000 < now - st.last_reopen →
          (file_raw_log now now2 openOk st message).2
              = [.lockAcquire, .fileWrite message, .fileFlush, .lockRelease,
                 .lockAcquire, .lockRelease]
            ∧ (file_raw_log now now2 openOk st message).1.isOpen = st.isOpen
            ∧ (file_raw_log now now2 openOk st message).1.last_reopen = st.last_reopen) := by
  unfold file_raw_log reopen
  cases openOk <;> cases hio : st.isOpen <;> simp [hio] <;> split_ifs with hc <;>
    simp_all <;> omega

theorem C5_witness :
    (file_raw_log 1000000000 1000000001 true fileSt5 "m").2
        = [.lockAcquire, .fileWrite "m", .fileFlush, .lockRelease,
           .lockAcquire, .fileClose, .fileOpen fileSt5.file_name, .lockRelease]
      ∧ (file_raw_log 1000000000 1000000001 true fileSt5 "m").1.isOpen = true
      ∧ (file_raw_log 1000000000 1000000001 true fileSt5 "m").1.last_reopen = 1000000001 :=
  ((C5_amended_raw_write 1000000000 1000000001 true fileSt5 "m").2.1 (by decide)).1 rfl

/-- C7 (the code at the failing input): a raw write whose reopen check cannot
open the target file completes NORMALLY — the model's write path is a total
function with no error outcome because the source's `std::ofstream` has no
exception mask, so `open` only sets the failbit and the constructor's
catch/rethrow is dead code.  After the failed reopen the handle is closed
(`isOpen = false`) and a subsequent log call silently drops its message (the
OS file receives nothing and the caller again sees no error), contradicting
the claim that the failure is surfaced to the caller of the write path and
that messages are never silently dropped. -/
theorem C7_reopen_failure_silent :
    (file_raw_log 1000000000 1000000000 false fileSt5 "first").1.isOpen = false
      ∧ (file_raw_log 1000000000 1000000000 false fileSt5 "first").1.written = ["first"]
      ∧ (file_raw_log 1000000000 1000000000 false fileSt5 "first").2
          = [.lockAcquire, .fileWrite "first", .fileFlush, .lockRelease,
             .lockAcquire, .fileClose, .fileOpenFail "42-test.log", .lockRelease]
      ∧ (file_raw_log 1000000001 1000000001 false
            (file_raw_log 1000000000 1000000000 false fileSt5 "first").1 "second").1.written
          = ["first"] :=
  ⟨rfl, rfl, rfl, rfl⟩

/-- A string ends with exactly one newline: its last character is a newline
and the character before that (if any) is not. -/
def endsWithOneNewline (s : String) : Prop :=
  s.data.getLast? = some '\n' ∧ s.data.dropLast.getLast? ≠ some '\n'

/-- The string `m` occurs in `s` as a contiguous substring. -/
def containsSubstring (s m : String) : Prop :=
  ∃ u v : String, s = u ++ m ++ v

theorem endsOne_of_append (A message : String)
    (hm : message.data.getLast? ≠ some '\n')
    (hA : A.data.getLast? ≠ some '\n') :
    endsWithOneNewline (A ++ message ++ "\n") := by
  unfold endsWithOneNewline
  constructor
  · rw [String.data_append_eq, show ("\n" : String).data = ['\n'] from rfl]
    exact List.getLast?_concat _
  · rw [String.data_append_eq, show ("\n" : String).data = ['\n'] from rfl,
      List.dropLast_concat, String.data_append_eq, List.getLast?_append]
    rcases hmd : message.data.getLast? with _ | c
    · simpa using hA
    · have hc : c ≠ '\n' := by
        intro hcc
        exact hm (by rw [hmd, hcc])
      simpa using hc

/-- C8 counterexample: for the input message "x\n" (which itself ends in a
newline) at level ERROR, the emitted line ends in TWO newlines, so it does
not end with exactly one newline as the claim states for every message. -/
theorem C8_counterexample :
    ¬ endsWithOneNewline (file_line tm0 "x\n" .ERROR) := by
  unfold endsWithOneNewline
  decide

/-- C8 (amended): for every level at or above the cutoff and every message
that does not itself end in a newline, the single line emitted by either
backend ends with exactly one newline and contains the literal message as a
contiguous substring (in general the emitted line is the formatted prefix,
then the message, then one appended newline). -/
theorem C8_amended_line_shape (isColored : Bool) (pid : Nat) (gmt : Tm)
    (message : String) (level : log_level)
    (h : LOG_LEVEL_CUTOFF.toNat ≤ level.toNat)
    (hm : message.data.getLast? ≠ some '\n') :
    (endsWithOneNewline (std_out_line isColored pid gmt message level)
      ∧ containsSubstring (std_out_line isColored pid gmt message level) message)
      ∧ (endsWithOneNewline (file_line gmt message level)
        ∧ containsSubstring (file_line gmt message level) message)
      ∧ emitted (std_out_log isColored pid gmt message level)
          = [std_out_line isColored pid gmt message level]
      ∧ (∀ now now2 openOk st,
          emitted (file_log now now2 openOk st gmt message level).2
            = [file_line gmt message level]) := by
  have hn : ¬ level.toNat < LOG_LEVEL_CUTOFF.toNat := Nat.not_lt.mpr h
  refine ⟨⟨?_, ?_⟩, ⟨?_, ?_⟩, ?_, ?_⟩
  · have hlab : (if isColored then colored level else uncolored level).data.getLast?
        = some ' ' := by
      cases isColored <;> cases level <;> rfl
    have hA : (timestamp gmt ++ " [" ++ toString pid ++ "]"
        ++ (if isColored then colored level else uncolored level)).data.getLast?
        ≠ some '\n' := by
      rw [String.data_append_eq, List.getLast?_append, hlab]
      simp
    unfold std_out_line
    exact endsOne_of_append _ _ hm hA
  · exact ⟨timestamp gmt ++ " [" ++ toString pid ++ "]"
      ++ (if isColored then colored level else uncolored level), "\n", rfl⟩
  · have hlab : (uncolored level).data.getLast? = some ' ' := by
      cases level <;> rfl
    have hA : (timestamp gmt ++ uncolored level).data.getLast? ≠ some '\n' := by
      rw [String.data_append_eq, List.getLast?_append, hlab]
      simp
    unfold file_line
    exact endsOne_of_append _ _ hm hA
  · exact ⟨timestamp gmt ++ uncolored level, "\n", rfl⟩
  · unfold std_out_log
    rw [if_neg hn]
    rfl
  · intro now now2 openOk st
    unfold file_log
    rw [if_neg hn]
    unfold file_raw_log
    simp [emitted, emitted_reopen]

theorem C8_witness :
    endsWithOneNewline (std_out_line true 42 tm0 "boom" .ERROR)
      ∧ containsSubstring (std_out_line true 42 tm0 "boom" .ERROR) "boom"
      ∧ endsWithOneNewline (file_line tm0 "boom" .ERROR)
      ∧ containsSubstring (file_line tm0 "boom" .ERROR) "boom" :=
  ⟨((C8_amended_line_shape true 42 tm0 "boom" .ERROR (by decide) (by decide)).1).1,
   ((C8_amended_line_shape true 42 tm0 "boom" .ERROR (by decide) (by decide)).1).2,
   ((C8_amended_line_shape true 42 tm0 "boom" .ERROR (by decide) (by decide)).2.1).1,
   ((C8_amended_line_shape true 42 tm0 "boom" .ERROR (by decide) (by decide)).2.1).2⟩

/-- Check of the shape `\d{4}/\d{2}/\d{2} \d{2}:\d{2}:\d{2}\.\d{6}`. -/
def isTimestampPattern (cs : List Char) : Bool :=
  match cs with
  | [c0, c1, c2, c3, s1, c4, c5, s2, c6, c7, s3, c8, c9, s4, c10, c11, s5, c12, c13, s6,
     c14, c15, c16, c17, c18, c19] =>
    c0.isDigit && c1.isDigit && c2.isDigit && c3.isDigit && (s1 == '/')
      && c4.isDigit && c5.isDigit && (s2 == '/') && c6.isDigit && c7.isDigit
      && (s3 == ' ') && c8.isDigit && c9.isDigit && (s4 == ':') && c10.isDigit
      && c11.isDigit && (s5 == ':') && c12.isDigit && c13.isDigit && (s6 == '.')
      && c14.isDigit && c15.isDigit && c16.isDigit && c17.isDigit && c18.isDigit
      && c19.isDigit
  | _ => false

theorem digitOf_isDigit (n : Nat) : (digitOf n).isDigit = true := by
  have h : n % 10 < 10 := Nat.mod_lt _ (by decide)
  have hall : ∀ m, m < 10 → (Nat.digitChar m).isDigit = true := by decide
  exact hall _ h

/-- C9: `timestamp()` always produces a string of the exact 26-character form
`YYYY/MM/DD HH:MM:SS.ffffff` (pattern `\d{4}/\d{2}/\d{2}
\d{2}:\d{2}:\d{2}\.\d{6}`) for the wall-clock reading taken at the call,
modelled here as the `gmt`/`micros` input; the hypotheses are the ranges
`gmtime_r` guarantees for any representable clock value (4-digit year,
two-digit month/day/hour/minute fields, and a sub-minute time below 100
seconds even with a leap second and `%f` rounding). -/
theorem C9_timestamp_pattern (gmt : Tm)
    (hy : gmt.tm_year + 1900 < 10000) (hmo : gmt.tm_mon + 1 < 100)
    (hd : gmt.tm_mday < 100) (hh : gmt.tm_hour < 100) (hmi : gmt.tm_min < 100)
    (hus : gmt.micros < 100000000) :
    isTimestampPattern (timestamp gmt).data = true := by
  have h1 : gmt.micros / 1000000 < 100 := by omega
  have hdata : (timestamp gmt).data
      = [digitOf ((gmt.tm_year + 1900) / 1000), digitOf ((gmt.tm_year + 1900) / 100),
         digitOf ((gmt.tm_year + 1900) / 10), digitOf (gmt.tm_year + 1900), '/',
         digitOf ((gmt.tm_mon + 1) / 10), digitOf (gmt.tm_mon + 1), '/',
         digitOf (gmt.tm_mday / 10), digitOf gmt.tm_mday, ' ',
         digitOf (gmt.tm_hour / 10), digitOf gmt.tm_hour, ':',
         digitOf (gmt.tm_min / 10), digitOf gmt.tm_min, ':',
         digitOf (gmt.micros / 1000000 / 10), digitOf (gmt.micros / 1000000), '.',
         digitOf (gmt.micros % 1000000 / 100000), digitOf (gmt.micros % 1000000 / 10000),
         digitOf (gmt.micros % 1000000 / 1000), digitOf (gmt.micros % 1000000 / 100),
         digitOf (gmt.micros % 1000000 / 10), digitOf (gmt.micros % 1000000)] := by
    unfold timestamp fmt96 fmt4 fmt2 fmt6
    rw [if_pos hy, if_pos hmo, if_pos hd, if_pos hh, if_pos hmi, if_pos h1]
    simp only [String.data_append_eq]
    rfl
  rw [hdata]
  simp [isTimestampPattern, digitOf_isDigit]

theorem C9_witness : isTimestampPattern (timestamp tm0).data = true :=
  C9_timestamp_pattern tm0 (by decide) (by decide) (by decide) (by decide) (by decide)
    (by decide)
